import Mathlib

/-!
Verification of the Ottr exclusive-messaging core against its specification.

The definitions below are a shallow embedding of the repository's
connection-state machine and message-delivery pipeline:

* `ConnectionService` embeds `src/services/supabase/connectionService.ts`
  (send / accept / reject connection request, disconnect).  A database row
  set is modelled as explicit lists; Supabase query combinators are mapped
  to list operations (`.eq` filters to `List.filter` with `==`,
  `.single()` to pattern-matching on a one-element filter result,
  `.update().eq(...)` to `List.map` guarded by the key test, which like
  Supabase succeeds even when no row matches).  The source wraps each
  operation in begin/commit/rollback RPCs, so a failed operation leaves
  the database unchanged: each embedded operation returns the original
  database on the error path.
* `MessageService` embeds `src/services/supabase/messageService.ts`
  (validation + insert of messages, pagination, read-marking, the
  persisted offline queue and its drain loop).  `Date.now()` /
  `new Date().toISOString()` values and server-assigned row ids are passed
  in as explicit parameters; the external store's availability for one
  insert is an explicit `insertOk` boolean (the remote store is an
  external collaborator).
* `MessageStore` embeds the Zustand message store (`sendMessage` with its
  optimistic append, offline branch, pagination window trimming,
  `resetStore`).  The store's `sendMessage` is split into `phase1`
  (everything executed synchronously before the awaited network call) and
  `phase2` (the continuation applied to the network result); their
  composition is the whole action, which makes the append-before-send
  ordering a structural fact.  Typing-indicator bookkeeping and loading
  flags that no claim mentions are not modelled.
* `ConnectionStore` embeds the Zustand connection store's `sendRequest`
  action, and `confirmDisconnect` embeds the settings screen's disconnect
  confirmation handler (service call followed by `resetStore`).
-/

set_option maxRecDepth 10000

namespace Ottr

/-- JavaScript `String.prototype.trim()`: strips whitespace from both
ends (structural recursion so that concrete inputs evaluate). -/
def jsTrim (s : String) : String :=
  String.mk
    (((s.data.dropWhile Char.isWhitespace).reverse.dropWhile
      Char.isWhitespace).reverse)

/-- A row of the `users` table (fields used by the core). -/
structure UserRow where
  id : String
  connection_status : String
  connected_to : Option String
  deriving Repr, DecidableEq

/-- A row of the `connection_requests` table.  `created_at` / `updated_at`
are never read by any modelled operation and are omitted. -/
structure RequestRow where
  id : String
  from_user : String
  to_user : String
  status : String
  deriving Repr, DecidableEq

/-- A row of the `messages` table.  Timestamps are abstract `Nat` instants
(the argument order of calls fixes which concrete ISO string each stands
for). -/
structure Message where
  id : String
  from_user : String
  to_user : String
  content : String
  created_at : Nat
  read_at : Option Nat
  deriving Repr, DecidableEq

/-- `localStatus` values of the store-local message augmentation. -/
inductive LocalStatus where
  | sending
  | sent
  | read
  | failed
  deriving Repr, DecidableEq

/-- A message as held in the message store: a `Message` plus the optional
`localStatus` UI augmentation. -/
structure LocalMessage where
  id : String
  from_user : String
  to_user : String
  content : String
  created_at : Nat
  read_at : Option Nat
  localStatus : Option LocalStatus
  deriving Repr, DecidableEq

/-- A server `Message` viewed as a store message (`localStatus` absent,
as when a fetched `Message[]` is assigned into the `LocalMessage[]`
state). -/
def msgAsLocal (m : Message) : LocalMessage :=
  ⟨m.id, m.from_user, m.to_user, m.content, m.created_at, m.read_at, none⟩

/-- A server `Message` tagged with an explicit local status (the
`{ ...data, localStatus: s }` spread). -/
def msgAsLocalWith (m : Message) (s : LocalStatus) : LocalMessage :=
  ⟨m.id, m.from_user, m.to_user, m.content, m.created_at, m.read_at, some s⟩

/-- An entry of the persisted offline message queue
(`ottr_offline_message_queue`). -/
structure QueueEntry where
  toUserId : String
  content : String
  createdAt : Nat
  deriving Repr, DecidableEq

/-- The remote database state touched by the connection service. -/
structure DB where
  users : List UserRow
  requests : List RequestRow
  deriving Repr, DecidableEq

/-- Lookup of a user row by id (unique-key read). -/
def DB.userById (db : DB) (uid : String) : Option UserRow :=
  db.users.find? (fun u => u.id == uid)

/-- All `pending` requests between the unordered pair of users. -/
def DB.pendingBetween (db : DB) (x y : String) : List RequestRow :=
  db.requests.filter (fun r =>
    ((r.from_user == x && r.to_user == y) || (r.from_user == y && r.to_user == x))
      && r.status == "pending")

/-- Result of `sendConnectionRequest`; one constructor per throw site of
the source (each is normalized to `{ success: false, error }` there). -/
inductive SendReqResult where
  | ok
  | usersNotFound
  | fromNotDisconnected
  | toNotDisconnected
  | duplicateRequest
  deriving Repr, DecidableEq

/-- Result of `acceptConnectionRequest` / `rejectConnectionRequest`: the
only failure the precondition can produce is the `.single()` miss on the
pending request, which the spec calls `RequestNotFoundError`. -/
inductive RequestLookupResult where
  | ok
  | requestNotFound
  deriving Repr, DecidableEq

/-- Result of `disconnectUsers`: both throw sites (`.single()` miss on a
`connected` row, and a missing/falsy `connected_to`) say the user is not
connected, which the spec calls `NotConnectedError`. -/
inductive DisconnectResult where
  | ok
  | notConnected
  deriving Repr, DecidableEq

namespace ConnectionService

/-- `sendConnectionRequest(fromUserId, toUserId)`.  `newId` is the
server-assigned id of the inserted request row. -/
def sendConnectionRequest (db : DB) (fromUserId toUserId newId : String) :
    SendReqResult × DB :=
  -- .in('id', [fromUserId, toUserId])
  let users := db.users.filter (fun u => u.id == fromUserId || u.id == toUserId)
  if users.length ≠ 2 then (.usersNotFound, db)
  else
    match users.find? (fun u => u.id == fromUserId),
          users.find? (fun u => u.id == toUserId) with
    | some fromUser, some toUser =>
      if fromUser.connection_status ≠ "disconnected" then (.fromNotDisconnected, db)
      else if toUser.connection_status ≠ "disconnected" then (.toNotDisconnected, db)
      else
        -- .or(from_user in pair).or(to_user in pair).eq('status','pending'):
        -- consecutive .or filters are conjoined by PostgREST.
        let existing := db.requests.filter (fun r =>
          (r.from_user == fromUserId || r.from_user == toUserId)
            && (r.to_user == toUserId || r.to_user == fromUserId)
            && r.status == "pending")
        if existing.length > 0 then (.duplicateRequest, db)
        else
          let requests1 := db.requests
            ++ [{ id := newId, from_user := fromUserId, to_user := toUserId,
                  status := "pending" }]
          let users1 := db.users.map (fun u =>
            if u.id == fromUserId then { u with connection_status := "pending" } else u)
          let users2 := users1.map (fun u =>
            if u.id == toUserId then { u with connection_status := "pending" } else u)
          (.ok, { users := users2, requests := requests1 })
    | _, _ => (.usersNotFound, db)

/-- `acceptConnectionRequest(requestId)`. -/
def acceptConnectionRequest (db : DB) (requestId : String) :
    RequestLookupResult × DB :=
  -- .eq('id', requestId).eq('status', 'pending').single()
  match db.requests.filter (fun r => r.id == requestId && r.status == "pending") with
  | [req] =>
    let requests1 := db.requests.map (fun r =>
      if r.id == requestId then { r with status := "accepted" } else r)
    let users1 := db.users.map (fun u =>
      if u.id == req.from_user then
        { u with connection_status := "connected", connected_to := some req.to_user }
      else u)
    let users2 := users1.map (fun u =>
      if u.id == req.to_user then
        { u with connection_status := "connected", connected_to := some req.from_user }
      else u)
    (.ok, { users := users2, requests := requests1 })
  | _ => (.requestNotFound, db)

/-- `rejectConnectionRequest(requestId)`. -/
def rejectConnectionRequest (db : DB) (requestId : String) :
    RequestLookupResult × DB :=
  match db.requests.filter (fun r => r.id == requestId && r.status == "pending") with
  | [req] =>
    let requests1 := db.requests.map (fun r =>
      if r.id == requestId then { r with status := "rejected" } else r)
    let users1 := db.users.map (fun u =>
      if u.id == req.from_user then
        { u with connection_status := "disconnected", connected_to := none }
      else u)
    let users2 := users1.map (fun u =>
      if u.id == req.to_user then
        { u with connection_status := "disconnected", connected_to := none }
      else u)
    (.ok, { users := users2, requests := requests1 })
  | _ => (.requestNotFound, db)

/-- `disconnectUsers(userId)`.  The `!user.connected_to` test in the
source also treats the empty string as missing (JS falsiness). -/
def disconnectUsers (db : DB) (userId : String) : DisconnectResult × DB :=
  -- .eq('id', userId).eq('connection_status', 'connected').single()
  match db.users.filter (fun u =>
      u.id == userId && u.connection_status == "connected") with
  | [user] =>
    match user.connected_to with
    | none => (.notConnected, db)
    | some connectedUserId =>
      if connectedUserId = "" then (.notConnected, db)
      else
        let users1 := db.users.map (fun u =>
          if u.id == userId then
            { u with connection_status := "disconnected", connected_to := none }
          else u)
        let users2 := users1.map (fun u =>
          if u.id == connectedUserId then
            { u with connection_status := "disconnected", connected_to := none }
          else u)
        (.ok, { db with users := users2 })
  | _ => (.notConnected, db)

end ConnectionService

/-- Result of the message service's `sendMessage`; one constructor per
return/throw site of the source.  `emptyContent` / `tooLong` are the
spec's `EmptyContentError` / `ContentTooLongError`; `insertFailed` is the
normalized remote-insert failure (`NetworkError`). -/
inductive SendMsgResult where
  | sent (row : Message)
  | emptyContent
  | tooLong
  | insertFailed
  deriving Repr, DecidableEq

namespace MessageService

/-- `sendMessage(fromUserId, toUserId, content)` of the message service.
`msgs` is the remote `messages` table, `newId` the server-assigned row id,
`now` the insert timestamp.  `insertOk` models whether the external
store's insert succeeds (a transient network failure when `false`). -/
def sendMessage (msgs : List Message) (newId : String) (now : Nat)
    (fromUserId toUserId content : String) (insertOk : Bool) :
    SendMsgResult × List Message :=
  if jsTrim content = "" then (.emptyContent, msgs)
  else if content.length > 500 then (.tooLong, msgs)
  else if insertOk then
    let row : Message :=
      { id := newId, from_user := fromUserId, to_user := toUserId,
        content := jsTrim content, created_at := now, read_at := none }
    (.sent row, msgs ++ [row])
  else (.insertFailed, msgs)

/-- `getMessageHistory(userId, partnerId, offset, limit)`:
`conversation` is the conversation's rows already ordered newest-first
(`order('created_at', ascending: false)`); `.range(offset, offset+limit-1)`
is drop-then-take. -/
def getMessageHistory (conversation : List Message) (offset limit : Nat) :
    List Message :=
  (conversation.drop offset).take limit

/-- `markMessageAsRead(messageId)`: an unconditional
`update({ read_at: now }).eq('id', messageId)`. -/
def markMessageAsRead (msgs : List Message) (now : Nat) (messageId : String) :
    List Message :=
  msgs.map (fun m => if m.id == messageId then { m with read_at := some now } else m)

/-- `markAllMessagesAsRead(fromUserId, toUserId)`: same update but
restricted by `.is('read_at', null)`. -/
def markAllMessagesAsRead (msgs : List Message) (now : Nat)
    (fromUserId toUserId : String) : List Message :=
  msgs.map (fun m =>
    if m.from_user == fromUserId && m.to_user == toUserId && m.read_at == none then
      { m with read_at := some now }
    else m)

/-- `addToOfflineQueue(toUserId, content)`: read the stored queue, push,
write back. -/
def addToOfflineQueue (queue : List QueueEntry) (toUserId content : String)
    (now : Nat) : List QueueEntry :=
  queue ++ [{ toUserId := toUserId, content := content, createdAt := now }]

/-- The `for (const message of queue)` drain loop of
`processOfflineQueue`.  `attempt e` is whether `sendMessage` succeeds for
entry `e`.  On the first failing entry the source writes back
`queue.slice(queue.indexOf(message))`; since the entries come from
`JSON.parse` they are reference-distinct, so `indexOf` of the loop's
current element is exactly its position and the write-back is the suffix
starting at the failed entry, which the recursion passes directly.
Returns (overall success, stored queue afterwards, entries attempted in
order). -/
def drainLoop (attempt : QueueEntry → Bool) :
    List QueueEntry → Bool × List QueueEntry × List QueueEntry
  | [] => (true, [], [])
  | e :: rest =>
    if attempt e then
      let r := drainLoop attempt rest
      (r.1, r.2.1, e :: r.2.2)
    else (false, e :: rest, [e])

/-- `processOfflineQueue(fromUserId)`: drains the stored queue strictly in
order; an empty queue returns success immediately; full success removes
the stored queue; a failure stores back the unsent suffix. -/
def processOfflineQueue (attempt : QueueEntry → Bool)
    (queue : List QueueEntry) : Bool × List QueueEntry × List QueueEntry :=
  if queue = [] then (true, [], [])
  else drainLoop attempt queue

end MessageService

namespace MessageStore

/-- The slice of the message store's state that the modelled actions
touch: the local window (newest first), the persisted offline queue, the
connectivity flag, the send-in-flight flag and the surfaced error (the
error slot keeps the structured failure rather than its display
string). -/
structure ChatState where
  messages : List LocalMessage
  offlineQueue : List QueueEntry
  isOnline : Bool
  isSendingMessage : Bool
  error : Option SendMsgResult
  deriving Repr, DecidableEq

/-- The optimistic record the store prepends before sending. -/
def optimisticMessage (tempId userId partnerId content : String) (now : Nat) :
    LocalMessage :=
  { id := tempId, from_user := userId, to_user := partnerId, content := content,
    created_at := now, read_at := none, localStatus := some .sending }

/-- Online branch of the store's `sendMessage`, part executed
synchronously before the awaited network call: prepend the optimistic
record (window is newest-first). -/
def sendMessagePhase1 (s : ChatState) (tempId userId partnerId content : String)
    (now : Nat) : ChatState :=
  { s with messages :=
      optimisticMessage tempId userId partnerId content now :: s.messages }

/-- Online branch of the store's `sendMessage`, continuation applied to
the network result: on success the temp record is replaced (by id) with
the server record tagged `sent`; on failure the temp record is flipped to
`failed` and the error is surfaced. -/
def sendMessagePhase2 (s : ChatState) (tempId : String) (res : SendMsgResult) :
    ChatState :=
  match res with
  | .sent row =>
    { s with
      messages := s.messages.map (fun m =>
        if m.id == tempId then msgAsLocalWith row .sent else m),
      isSendingMessage := false, error := none }
  | e =>
    { s with
      messages := s.messages.map (fun m =>
        if m.id == tempId then { m with localStatus := some .failed } else m),
      isSendingMessage := false, error := some e }

/-- The store's `sendMessage(content)` (user and partner already
resolved; the typing-indicator clear touches no modelled state).  Offline:
enqueue and prepend an optimistic record, no network attempt.  Online:
`phase1`, then the service send against the remote table, then `phase2`.
Returns the new store state and the new remote `messages` table. -/
def sendMessage (s : ChatState) (serverMsgs : List Message)
    (userId partnerId content tempId offlineId serverId : String) (now : Nat)
    (insertOk : Bool) : ChatState × List Message :=
  if s.isOnline = false then
    ({ s with
        offlineQueue := MessageService.addToOfflineQueue s.offlineQueue partnerId content now,
        messages :=
          { id := offlineId, from_user := userId, to_user := partnerId,
            content := content, created_at := now, read_at := none,
            localStatus := some .sending } :: s.messages,
        isSendingMessage := false, error := none }, serverMsgs)
  else
    let s1 := sendMessagePhase1 s tempId userId partnerId content now
    let r := MessageService.sendMessage serverMsgs serverId now userId partnerId
      content insertOk
    (sendMessagePhase2 s1 tempId r.1, r.2)

/-- Pagination-related slice of the store's state. -/
structure PagState where
  messages : List LocalMessage
  currentPage : Nat
  hasMoreMessages : Bool
  isLoadingMore : Bool
  cachedMessages : List LocalMessage
  deriving Repr, DecidableEq

/-- JavaScript `array.slice(-n)`: the last `min n length` elements. -/
def jsSliceLast {α : Type} (n : Nat) (l : List α) : List α :=
  l.drop (l.length - n)

/-- The store's `loadMessages(userId, partnerId, refresh)`: fetches the
page, replaces (refresh) or appends, trims the window with `slice(-200)`,
persists `slice(-100)` of it as the cold-start cache, and derives
`hasMoreMessages` from a full page.  The page size is the store's fixed
`messagesPerPage = 20`. -/
def loadMessages (s : PagState) (conversation : List Message)
    (refresh : Bool) : PagState :=
  let page := if refresh then 0 else s.currentPage
  let data := MessageService.getMessageHistory conversation (page * 20) 20
  let combined := if refresh then data.map msgAsLocal
                  else s.messages ++ data.map msgAsLocal
  let trimmed := jsSliceLast 200 combined
  { s with
    messages := trimmed,
    cachedMessages := jsSliceLast 100 trimmed,
    hasMoreMessages := data.length == 20,
    currentPage := if refresh then 0 else s.currentPage }

/-- The store's `loadMoreMessages(userId, partnerId)`: no-op while a load
is in flight or when no more pages are expected; otherwise fetch the next
page, append, trim, cache. -/
def loadMoreMessages (s : PagState) (conversation : List Message) : PagState :=
  if s.isLoadingMore || !s.hasMoreMessages then s
  else
    let nextPage := s.currentPage + 1
    let data := MessageService.getMessageHistory conversation (nextPage * 20) 20
    let combined := s.messages ++ data.map msgAsLocal
    let trimmed := jsSliceLast 200 combined
    { s with
      messages := trimmed,
      cachedMessages := jsSliceLast 100 trimmed,
      hasMoreMessages := data.length == 20,
      currentPage := nextPage }

/-- The store's `resetStore()`: clears the message window and resets the
flags (subscription teardown touches no modelled state; the persisted
offline queue is not touched). -/
def resetStore (s : ChatState) : ChatState :=
  { s with messages := [], isSendingMessage := false, error := none }

end MessageStore

namespace ConnectionStore

/-- The slice of the connection store's state used by `sendRequest`. -/
structure StoreState where
  connectionStatus : Option String
  connectedUser : Option UserRow
  error : Option SendReqResult
  deriving Repr, DecidableEq

/-- The store's `sendRequest(toUserId)`: calls the service with
`connectedUser?.id || ''` as the from-user (the JS `||` turns both a
missing user and an empty id into `''`), surfaces the error on failure,
sets local status to pending on success. -/
def sendRequest (st : StoreState) (db : DB) (toUserId newId : String) :
    Bool × StoreState × DB :=
  let fromId := (st.connectedUser.map (fun u => u.id)).getD ""
  let r := ConnectionService.sendConnectionRequest db fromId toUserId newId
  match r.1 with
  | .ok => (true, { st with connectionStatus := some "pending", error := none }, r.2)
  | e => (false, { st with error := some e }, r.2)

end ConnectionStore

/-- The settings screen's `confirmDisconnect`: calls the store's
`disconnect` (which wraps `disconnectUsers`) and, only on success, resets
the message store. -/
def confirmDisconnect (db : DB) (s : MessageStore.ChatState) (userId : String) :
    DisconnectResult × DB × MessageStore.ChatState :=
  let r := ConnectionService.disconnectUsers db userId
  match r.1 with
  | .ok => (.ok, r.2, MessageStore.resetStore s)
  | .notConnected => (.notConnected, r.2, s)

/-! Concrete sample states used by witness and counterexample theorems. -/

/-- Two users with a pending request between them. -/
def dbPendingPair : DB :=
  { users := [⟨"A", "pending", none⟩, ⟨"B", "pending", none⟩],
    requests := [⟨"r1", "A", "B", "pending"⟩] }

/-- Two disconnected users, no requests. -/
def dbFreshPair : DB :=
  { users := [⟨"A", "disconnected", none⟩, ⟨"B", "disconnected", none⟩],
    requests := [] }

/-- A pending sender next to a disconnected receiver. -/
def dbHalfPending : DB :=
  { users := [⟨"A", "pending", none⟩, ⟨"B", "disconnected", none⟩],
    requests := [] }

/-- Disconnected users with a stale pending request left between them. -/
def dbStalePending : DB :=
  { users := [⟨"A", "disconnected", none⟩, ⟨"B", "disconnected", none⟩],
    requests := [⟨"r0", "A", "B", "pending"⟩] }

/-- A connected pair. -/
def dbConnectedPair : DB :=
  { users := [⟨"A", "connected", some "B"⟩, ⟨"B", "connected", some "A"⟩],
    requests := [⟨"r1", "A", "B", "accepted"⟩] }

/-- One unread message from B to A. -/
def msgsOneUnread : List Message := [⟨"m1", "B", "A", "hi", 0, none⟩]

/-- A 501-character content string (over the 500-character limit). -/
def content501 : String := String.mk (List.replicate 501 'a')

/-- An offline chat state with an empty window and empty queue. -/
def chatOffline : MessageStore.ChatState :=
  { messages := [], offlineQueue := [], isOnline := false,
    isSendingMessage := false, error := none }

/-- An online chat state holding one previously received message. -/
def chatOnline : MessageStore.ChatState :=
  { messages := [⟨"m0", "B", "A", "prev", 0, some 5, none⟩], offlineQueue := [],
    isOnline := true, isSendingMessage := false, error := none }

/-- A three-entry offline queue. -/
def queueThree : List QueueEntry :=
  [⟨"B", "one", 1⟩, ⟨"B", "two", 2⟩, ⟨"B", "three", 3⟩]

/-- A send outcome for the drain: every entry succeeds except content
`"two"`. -/
def attemptNotTwo (e : QueueEntry) : Bool := e.content != "two"

/-- The `i`-th newest message of a long conversation (newest first, so
`created_at` decreases with `i`; the trimming logic never reads ids, so a
constant id keeps evaluation cheap while `created_at` identifies each
row). -/
def convMsg (i : Nat) : Message :=
  ⟨"m", "B", "A", "x", 1000 - i, none⟩

/-- A conversation of 220 messages, newest first. -/
def conversation220 : List Message := (List.range 220).map convMsg

/-- A pagination state that already holds the newest 200 messages
(pages 0 to 9) of `conversation220`. -/
def pagFull : MessageStore.PagState :=
  { messages := ((List.range 200).map convMsg).map msgAsLocal,
    currentPage := 9, hasMoreMessages := true, isLoadingMore := false,
    cachedMessages := [] }

/-- The connection store's state for a signed-in, disconnected user:
`connectedUser` is `null`. -/
def connStoreDisconnected : ConnectionStore.StoreState :=
  { connectionStatus := some "disconnected", connectedUser := none, error := none }

end Ottr

namespace Ottr

/-! Helper lemmas about keyed list reads through keyed updates. -/

/-- `find?` commutes with a map whose function leaves the tested
predicate unchanged (updates that preserve the row key). -/
theorem find?_map_key {α : Type} (f : α → α) (p : α → Bool)
    (hp : ∀ a, p (f a) = p a) (l : List α) :
    (l.map f).find? p = (l.find? p).map f := by
  rw [List.find?_map, show p ∘ f = p from funext hp]

/-- `filter` commutes with a map whose function leaves the tested
predicate unchanged. -/
theorem filter_map_key {α : Type} (f : α → α) (p : α → Bool)
    (hp : ∀ a, p (f a) = p a) (l : List α) :
    (l.map f).filter p = (l.filter p).map f := by
  rw [List.filter_map, show p ∘ f = p from funext hp]

/-- Searching a filtered list with a predicate that implies the filter is
the same as searching the original list. -/
theorem find?_filter_of_imp {α : Type} (l : List α) (p q : α → Bool)
    (h : ∀ a, q a = true → p a = true) :
    (l.filter p).find? q = l.find? q := by
  rw [List.find?_filter]
  congr 1
  funext a
  cases hq : q a with
  | true => simp [h a hq, hq]
  | false => simp [hq]

/-- Filtering requests by id and status decomposes into the two filters. -/
theorem filter_id_status (l : List RequestRow) (rid st : String) :
    l.filter (fun r => r.id == rid && r.status == st) =
      (l.filter (fun r => r.id == rid)).filter (fun r => r.status == st) := by
  rw [List.filter_filter]
  congr 1
  funext r
  exact Bool.and_comm _ _

/-- C1: for a pending connection request `req` between two distinct users
(with `req` the only request carrying its id, and both user rows
present), `acceptConnectionRequest` succeeds exactly once: the first call
returns success, marks the request `accepted`, and sets both users to
`connected` pointing at each other; the second call on the same request
fails with the request-not-found error and leaves the database
unchanged. -/
theorem acceptRequest_exactly_once
    (db : DB) (rid : String) (req : RequestRow) (a b : UserRow)
    (hrid : db.requests.filter (fun r => r.id == rid) = [req])
    (hpend : req.status = "pending")
    (ha : db.userById req.from_user = some a)
    (hb : db.userById req.to_user = some b)
    (hab : req.from_user ≠ req.to_user) :
    (ConnectionService.acceptConnectionRequest db rid).1 = .ok ∧
    ((ConnectionService.acceptConnectionRequest db rid).2.userById req.from_user =
      some { a with connection_status := "connected",
                    connected_to := some req.to_user }) ∧
    ((ConnectionService.acceptConnectionRequest db rid).2.userById req.to_user =
      some { b with connection_status := "connected",
                    connected_to := some req.from_user }) ∧
    ((ConnectionService.acceptConnectionRequest db rid).2.requests.filter
        (fun r => r.id == rid) = [{ req with status := "accepted" }]) ∧
    (ConnectionService.acceptConnectionRequest
        (ConnectionService.acceptConnectionRequest db rid).2 rid =
      (.requestNotFound, (ConnectionService.acceptConnectionRequest db rid).2)) := by
  have hpf : db.requests.filter (fun r => r.id == rid && r.status == "pending") = [req] := by
    rw [filter_id_status, hrid]
    simp [List.filter, hpend]
  have hacc : ConnectionService.acceptConnectionRequest db rid =
      (.ok,
        { users := (db.users.map (fun u =>
            if u.id == req.from_user then
              { u with connection_status := "connected",
                       connected_to := some req.to_user }
            else u)).map (fun u =>
            if u.id == req.to_user then
              { u with connection_status := "connected",
                       connected_to := some req.from_user }
            else u),
          requests := db.requests.map (fun r =>
            if r.id == rid then { r with status := "accepted" } else r) }) := by
    unfold ConnectionService.acceptConnectionRequest
    rw [hpf]
  have ha' : db.users.find? (fun u => u.id == req.from_user) = some a := ha
  have hb' : db.users.find? (fun u => u.id == req.to_user) = some b := hb
  have haid : (a.id == req.from_user) = true := by
    simpa using List.find?_some ha'
  have hbid : (b.id == req.to_user) = true := by
    simpa using List.find?_some hb'
  have haid' : a.id = req.from_user := eq_of_beq haid
  have hbid' : b.id = req.to_user := eq_of_beq hbid
  have hreqs : (ConnectionService.acceptConnectionRequest db rid).2.requests.filter
      (fun r => r.id == rid) = [{ req with status := "accepted" }] := by
    rw [hacc]
    show (db.requests.map _).filter _ = _
    rw [filter_map_key _ _ (fun r => by split <;> rfl), hrid]
    have hm : (req.id == rid) = true := by
      have hmem : req ∈ db.requests.filter (fun r => r.id == rid) := by
        rw [hrid]; exact List.mem_singleton.mpr rfl
      exact (List.mem_filter.mp hmem).2
    simp [eq_of_beq hm]
  refine ⟨by rw [hacc], ?_, ?_, hreqs, ?_⟩
  · rw [hacc]
    show ((db.users.map _).map _).find? _ = _
    rw [find?_map_key _ _ (fun u => by split <;> rfl),
        find?_map_key _ _ (fun u => by split <;> rfl)]
    rw [ha']
    simp [haid', hab]
  · rw [hacc]
    show ((db.users.map _).map _).find? _ = _
    rw [find?_map_key _ _ (fun u => by split <;> rfl),
        find?_map_key _ _ (fun u => by split <;> rfl)]
    rw [hb']
    have hba : req.to_user ≠ req.from_user := Ne.symm hab
    simp [hbid', hba]
  · have hpf1 : (ConnectionService.acceptConnectionRequest db rid).2.requests.filter
        (fun r => r.id == rid && r.status == "pending") = [] := by
      rw [filter_id_status, hreqs]
      simp [List.filter]
    conv_lhs => rw [ConnectionService.acceptConnectionRequest]
    rw [hpf1]

/-- Witness for C1: accepting the pending request `r1` of
`dbPendingPair` connects `A` and `B` symmetrically, and a second accept
of `r1` fails without changing the database. -/
theorem acceptRequest_exactly_once_witness :
    (ConnectionService.acceptConnectionRequest dbPendingPair "r1").1 = .ok ∧
    ((ConnectionService.acceptConnectionRequest dbPendingPair "r1").2.userById "A" =
      some ⟨"A", "connected", some "B"⟩) ∧
    ((ConnectionService.acceptConnectionRequest dbPendingPair "r1").2.userById "B" =
      some ⟨"B", "connected", some "A"⟩) ∧
    ((ConnectionService.acceptConnectionRequest dbPendingPair "r1").2.requests.filter
        (fun r => r.id == "r1") = [⟨"r1", "A", "B", "accepted"⟩]) ∧
    (ConnectionService.acceptConnectionRequest
        (ConnectionService.acceptConnectionRequest dbPendingPair "r1").2 "r1" =
      (.requestNotFound, (ConnectionService.acceptConnectionRequest dbPendingPair "r1").2)) :=
  acceptRequest_exactly_once dbPendingPair "r1" ⟨"r1", "A", "B", "pending"⟩
    ⟨"A", "pending", none⟩ ⟨"B", "pending", none⟩ (by decide) rfl (by decide)
    (by decide) (by decide)

/-- C7: for a pending connection request `req` between two distinct users
(with `req` the only request carrying its id and both user rows present),
`rejectConnectionRequest` succeeds, marks the request `rejected`, and
resets both parties to `disconnected` with no `connected_to` — the
operation takes only the request id, so the outcome is the same whichever
party invokes it.  A request that is no longer pending cannot be
rejected: repeating the call on the result fails with the
request-not-found error and changes nothing. -/
theorem rejectRequest_resets_both_parties
    (db : DB) (rid : String) (req : RequestRow) (a b : UserRow)
    (hrid : db.requests.filter (fun r => r.id == rid) = [req])
    (hpend : req.status = "pending")
    (ha : db.userById req.from_user = some a)
    (hb : db.userById req.to_user = some b)
    (hab : req.from_user ≠ req.to_user) :
    (ConnectionService.rejectConnectionRequest db rid).1 = .ok ∧
    ((ConnectionService.rejectConnectionRequest db rid).2.userById req.from_user =
      some { a with connection_status := "disconnected", connected_to := none }) ∧
    ((ConnectionService.rejectConnectionRequest db rid).2.userById req.to_user =
      some { b with connection_status := "disconnected", connected_to := none }) ∧
    ((ConnectionService.rejectConnectionRequest db rid).2.requests.filter
        (fun r => r.id == rid) = [{ req with status := "rejected" }]) ∧
    (ConnectionService.rejectConnectionRequest
        (ConnectionService.rejectConnectionRequest db rid).2 rid =
      (.requestNotFound, (ConnectionService.rejectConnectionRequest db rid).2)) := by
  have hpf : db.requests.filter (fun r => r.id == rid && r.status == "pending") = [req] := by
    rw [filter_id_status, hrid]
    simp [List.filter, hpend]
  have hrej : ConnectionService.rejectConnectionRequest db rid =
      (.ok,
        { users := (db.users.map (fun u =>
            if u.id == req.from_user then
              { u with connection_status := "disconnected", connected_to := none }
            else u)).map (fun u =>
            if u.id == req.to_user then
              { u with connection_status := "disconnected", connected_to := none }
            else u),
          requests := db.requests.map (fun r =>
            if r.id == rid then { r with status := "rejected" } else r) }) := by
    unfold ConnectionService.rejectConnectionRequest
    rw [hpf]
  have ha' : db.users.find? (fun u => u.id == req.from_user) = some a := ha
  have hb' : db.users.find? (fun u => u.id == req.to_user) = some b := hb
  have haid' : a.id = req.from_user := eq_of_beq (by simpa using List.find?_some ha')
  have hbid' : b.id = req.to_user := eq_of_beq (by simpa using List.find?_some hb')
  have hreqs : (ConnectionService.rejectConnectionRequest db rid).2.requests.filter
      (fun r => r.id == rid) = [{ req with status := "rejected" }] := by
    rw [hrej]
    show (db.requests.map _).filter _ = _
    rw [filter_map_key _ _ (fun r => by split <;> rfl), hrid]
    have hm : (req.id == rid) = true := by
      have hmem : req ∈ db.requests.filter (fun r => r.id == rid) := by
        rw [hrid]; exact List.mem_singleton.mpr rfl
      exact (List.mem_filter.mp hmem).2
    simp [eq_of_beq hm]
  refine ⟨by rw [hrej], ?_, ?_, hreqs, ?_⟩
  · rw [hrej]
    show ((db.users.map _).map _).find? _ = _
    rw [find?_map_key _ _ (fun u => by split <;> rfl),
        find?_map_key _ _ (fun u => by split <;> rfl)]
    rw [ha']
    simp [haid', hab]
  · rw [hrej]
    show ((db.users.map _).map _).find? _ = _
    rw [find?_map_key _ _ (fun u => by split <;> rfl),
        find?_map_key _ _ (fun u => by split <;> rfl)]
    rw [hb']
    have hba : req.to_user ≠ req.from_user := Ne.symm hab
    simp [hbid', hba]
  · have hpf1 : (ConnectionService.rejectConnectionRequest db rid).2.requests.filter
        (fun r => r.id == rid && r.status == "pending") = [] := by
      rw [filter_id_status, hreqs]
      simp [List.filter]
    conv_lhs => rw [ConnectionService.rejectConnectionRequest]
    rw [hpf1]

/-- Witness for C7: rejecting the pending request `r1` of
`dbPendingPair` resets both `A` and `B`, and the rejected request cannot
be rejected again. -/
theorem rejectRequest_resets_both_parties_witness :
    (ConnectionService.rejectConnectionRequest dbPendingPair "r1").1 = .ok ∧
    ((ConnectionService.rejectConnectionRequest dbPendingPair "r1").2.userById "A" =
      some ⟨"A", "disconnected", none⟩) ∧
    ((ConnectionService.rejectConnectionRequest dbPendingPair "r1").2.userById "B" =
      some ⟨"B", "disconnected", none⟩) ∧
    ((ConnectionService.rejectConnectionRequest dbPendingPair "r1").2.requests.filter
        (fun r => r.id == "r1") = [⟨"r1", "A", "B", "rejected"⟩]) ∧
    (ConnectionService.rejectConnectionRequest
        (ConnectionService.rejectConnectionRequest dbPendingPair "r1").2 "r1" =
      (.requestNotFound, (ConnectionService.rejectConnectionRequest dbPendingPair "r1").2)) :=
  rejectRequest_resets_both_parties dbPendingPair "r1" ⟨"r1", "A", "B", "pending"⟩
    ⟨"A", "pending", none⟩ ⟨"B", "pending", none⟩ (by decide) rfl (by decide)
    (by decide) (by decide)

/-- A pending request of the unordered pair passes the duplicate-check
filter of `sendConnectionRequest`. -/
theorem codePred_of_pairPred (x y : String) (r : RequestRow)
    (h : (((r.from_user == x && r.to_user == y)
        || (r.from_user == y && r.to_user == x)) && r.status == "pending") = true) :
    ((r.from_user == x || r.from_user == y)
      && (r.to_user == y || r.to_user == x) && r.status == "pending") = true := by
  simp only [Bool.and_eq_true, Bool.or_eq_true, beq_iff_eq] at h ⊢
  tauto

/-- A request passing the duplicate-check filter whose endpoints differ
(the schema forbids `from_user = to_user`) is a pending request of the
unordered pair. -/
theorem pairPred_of_codePred (x y : String) (r : RequestRow)
    (hne : r.from_user ≠ r.to_user)
    (h : ((r.from_user == x || r.from_user == y)
        && (r.to_user == y || r.to_user == x) && r.status == "pending") = true) :
    (((r.from_user == x && r.to_user == y)
        || (r.from_user == y && r.to_user == x)) && r.status == "pending") = true := by
  simp only [Bool.and_eq_true, Bool.or_eq_true, beq_iff_eq] at h ⊢
  obtain ⟨⟨h1 | h1, h2 | h2⟩, h3⟩ := h
  · exact ⟨Or.inl ⟨h1, h2⟩, h3⟩
  · exact absurd (h1.trans h2.symm) hne
  · exact absurd (h1.trans h2.symm) hne
  · exact ⟨Or.inr ⟨h1, h2⟩, h3⟩

/-- Reduction of `sendConnectionRequest` once both user rows are known to
be found by the two-user lookup. -/
theorem sendConnectionRequest_after_lookup
    (db : DB) (fromId toId newId : String) (a b : UserRow)
    (ha : db.userById fromId = some a)
    (hb : db.userById toId = some b)
    (hlen : (db.users.filter (fun u => u.id == fromId || u.id == toId)).length = 2) :
    ConnectionService.sendConnectionRequest db fromId toId newId =
      (if a.connection_status ≠ "disconnected" then (.fromNotDisconnected, db)
       else if b.connection_status ≠ "disconnected" then (.toNotDisconnected, db)
       else if (db.requests.filter (fun r =>
           (r.from_user == fromId || r.from_user == toId)
             && (r.to_user == toId || r.to_user == fromId)
             && r.status == "pending")).length > 0 then (.duplicateRequest, db)
       else (.ok,
         { users := (db.users.map (fun u =>
             if u.id == fromId then { u with connection_status := "pending" }
             else u)).map (fun u =>
             if u.id == toId then { u with connection_status := "pending" } else u),
           requests := db.requests
             ++ [{ id := newId, from_user := fromId, to_user := toId,
                   status := "pending" }] })) := by
  have hfa : (db.users.filter (fun u => u.id == fromId || u.id == toId)).find?
      (fun u => u.id == fromId) = some a := by
    rw [find?_filter_of_imp]
    · exact ha
    · intro u hq; rw [Bool.or_eq_true]; exact Or.inl hq
  have hfb : (db.users.filter (fun u => u.id == fromId || u.id == toId)).find?
      (fun u => u.id == toId) = some b := by
    rw [find?_filter_of_imp]
    · exact hb
    · intro u hq; rw [Bool.or_eq_true]; exact Or.inr hq
  unfold ConnectionService.sendConnectionRequest
  simp only [hlen, hfa, hfb]
  norm_num

/-- C2: for distinct users `fromId` and `toId` whose rows exist (and are
the only two rows matched by the two-user lookup), both `disconnected`,
with no pending request between them and no self-request rows in the
table (a schema constraint): `sendConnectionRequest` succeeds, both users
become `pending`, and exactly one pending request for the unordered pair
exists afterwards.  Moreover — for any database state — the operation
fails and leaves the state unchanged when the sender is not disconnected,
when the receiver is not disconnected, or when a pending request for the
pair already exists. -/
theorem sendRequest_creates_single_pending
    (db : DB) (fromId toId newId : String) (a b : UserRow)
    (hne : fromId ≠ toId)
    (ha : db.userById fromId = some a)
    (hb : db.userById toId = some b)
    (hlen : (db.users.filter (fun u => u.id == fromId || u.id == toId)).length = 2)
    (hadis : a.connection_status = "disconnected")
    (hbdis : b.connection_status = "disconnected")
    (hvalid : ∀ r ∈ db.requests, r.from_user ≠ r.to_user)
    (hnopend : db.pendingBetween fromId toId = []) :
    (ConnectionService.sendConnectionRequest db fromId toId newId).1 = .ok ∧
    ((ConnectionService.sendConnectionRequest db fromId toId newId).2.userById fromId =
      some { a with connection_status := "pending" }) ∧
    ((ConnectionService.sendConnectionRequest db fromId toId newId).2.userById toId =
      some { b with connection_status := "pending" }) ∧
    ((ConnectionService.sendConnectionRequest db fromId toId newId).2.pendingBetween
        fromId toId =
      [{ id := newId, from_user := fromId, to_user := toId, status := "pending" }]) ∧
    (∀ (db2 : DB) (a2 b2 : UserRow) (nid : String),
      db2.userById fromId = some a2 → db2.userById toId = some b2 →
      (db2.users.filter (fun u => u.id == fromId || u.id == toId)).length = 2 →
      a2.connection_status ≠ "disconnected" →
      ConnectionService.sendConnectionRequest db2 fromId toId nid =
        (.fromNotDisconnected, db2)) ∧
    (∀ (db2 : DB) (a2 b2 : UserRow) (nid : String),
      db2.userById fromId = some a2 → db2.userById toId = some b2 →
      (db2.users.filter (fun u => u.id == fromId || u.id == toId)).length = 2 →
      a2.connection_status = "disconnected" →
      b2.connection_status ≠ "disconnected" →
      ConnectionService.sendConnectionRequest db2 fromId toId nid =
        (.toNotDisconnected, db2)) ∧
    (∀ (db2 : DB) (a2 b2 : UserRow) (nid : String),
      db2.userById fromId = some a2 → db2.userById toId = some b2 →
      (db2.users.filter (fun u => u.id == fromId || u.id == toId)).length = 2 →
      a2.connection_status = "disconnected" →
      b2.connection_status = "disconnected" →
      db2.pendingBetween fromId toId ≠ [] →
      ConnectionService.sendConnectionRequest db2 fromId toId nid =
        (.duplicateRequest, db2)) := by
  have hstep := sendConnectionRequest_after_lookup db fromId toId newId a b ha hb hlen
  rw [hadis, hbdis] at hstep
  rw [if_neg (fun h => h rfl), if_neg (fun h => h rfl)] at hstep
  have hdupempty : (db.requests.filter (fun r =>
      (r.from_user == fromId || r.from_user == toId)
        && (r.to_user == toId || r.to_user == fromId)
        && r.status == "pending")) = [] := by
    rw [List.filter_eq_nil_iff]
    intro r hr hcode
    have hpair := pairPred_of_codePred fromId toId r (hvalid r hr) hcode
    have := List.filter_eq_nil_iff.mp hnopend r hr
    exact this hpair
  rw [hdupempty,
      if_neg (by decide : ¬(([] : List RequestRow).length > 0))] at hstep
  have ha' : db.users.find? (fun u => u.id == fromId) = some a := ha
  have hb' : db.users.find? (fun u => u.id == toId) = some b := hb
  have haid' : a.id = fromId := eq_of_beq (by simpa using List.find?_some ha')
  have hbid' : b.id = toId := eq_of_beq (by simpa using List.find?_some hb')
  refine ⟨by rw [hstep], ?_, ?_, ?_, ?_, ?_, ?_⟩
  · rw [hstep]
    show ((db.users.map _).map _).find? _ = _
    rw [find?_map_key _ _ (fun u => by split <;> rfl),
        find?_map_key _ _ (fun u => by split <;> rfl)]
    rw [ha']
    simp [haid', hne]
  · rw [hstep]
    show ((db.users.map _).map _).find? _ = _
    rw [find?_map_key _ _ (fun u => by split <;> rfl),
        find?_map_key _ _ (fun u => by split <;> rfl)]
    rw [hb']
    have hne' : toId ≠ fromId := Ne.symm hne
    simp [hbid', hne']
  · rw [hstep]
    show DB.pendingBetween _ _ _ = _
    unfold DB.pendingBetween
    rw [List.filter_append]
    have h1 : db.requests.filter (fun r =>
        ((r.from_user == fromId && r.to_user == toId)
          || (r.from_user == toId && r.to_user == fromId))
          && r.status == "pending") = [] := hnopend
    rw [h1]
    simp
  · intro db2 a2 b2 nid ha2 hb2 hlen2 hnotdis
    rw [sendConnectionRequest_after_lookup db2 fromId toId nid a2 b2 ha2 hb2 hlen2]
    rw [if_pos hnotdis]
  · intro db2 a2 b2 nid ha2 hb2 hlen2 hdis2 hnotdis
    rw [sendConnectionRequest_after_lookup db2 fromId toId nid a2 b2 ha2 hb2 hlen2]
    rw [hdis2, if_neg (fun h => h rfl), if_pos hnotdis]
  · intro db2 a2 b2 nid ha2 hb2 hlen2 hdis2 hdis2' hpend2
    rw [sendConnectionRequest_after_lookup db2 fromId toId nid a2 b2 ha2 hb2 hlen2]
    rw [hdis2, hdis2', if_neg (fun h => h rfl), if_neg (fun h => h rfl)]
    have hsub : ∃ r, r ∈ db2.requests.filter (fun r =>
        (r.from_user == fromId || r.from_user == toId)
          && (r.to_user == toId || r.to_user == fromId)
          && r.status == "pending") := by
      obtain ⟨r, hr⟩ := List.exists_mem_of_ne_nil _ hpend2
      refine ⟨r, ?_⟩
      have hmem := List.mem_filter.mp hr
      exact List.mem_filter.mpr ⟨hmem.1, codePred_of_pairPred fromId toId r hmem.2⟩
    obtain ⟨r, hr⟩ := hsub
    rw [if_pos (List.length_pos.mpr (List.ne_nil_of_mem hr))]

/-- Witness for C2: on `dbFreshPair` the request succeeds, both users
become `pending` and exactly one pending pair request exists; on
`dbHalfPending` (sender already pending) and on `dbStalePending` (a
pending pair request already present) the operation fails and changes
nothing. -/
theorem sendRequest_creates_single_pending_witness :
    (ConnectionService.sendConnectionRequest dbFreshPair "A" "B" "r9").1 = .ok ∧
    ((ConnectionService.sendConnectionRequest dbFreshPair "A" "B" "r9").2.userById "A" =
      some ⟨"A", "pending", none⟩) ∧
    ((ConnectionService.sendConnectionRequest dbFreshPair "A" "B" "r9").2.userById "B" =
      some ⟨"B", "pending", none⟩) ∧
    ((ConnectionService.sendConnectionRequest dbFreshPair "A" "B" "r9").2.pendingBetween
        "A" "B" = [⟨"r9", "A", "B", "pending"⟩]) ∧
    (ConnectionService.sendConnectionRequest dbHalfPending "A" "B" "r9" =
      (.fromNotDisconnected, dbHalfPending)) ∧
    (ConnectionService.sendConnectionRequest dbStalePending "A" "B" "r9" =
      (.duplicateRequest, dbStalePending)) := by
  have h := sendRequest_creates_single_pending dbFreshPair "A" "B" "r9"
    ⟨"A", "disconnected", none⟩ ⟨"B", "disconnected", none⟩
    (by decide) rfl rfl (by decide) rfl rfl (by decide) (by decide)
  exact ⟨h.1, h.2.1, h.2.2.1, h.2.2.2.1,
    h.2.2.2.2.1 dbHalfPending ⟨"A", "pending", none⟩ ⟨"B", "disconnected", none⟩ "r9"
      rfl rfl (by decide) (by decide),
    h.2.2.2.2.2.2 dbStalePending ⟨"A", "disconnected", none⟩
      ⟨"B", "disconnected", none⟩ "r9" rfl rfl (by decide) rfl rfl (by decide)⟩

/-- C8: for a connected user `uid` (its row `a` being the unique
connected row with that id, with `a.connected_to` pointing at the
existing distinct user `pid`), the settings screen's disconnect resets
both users to `disconnected` with no partner and clears the local
message history; afterwards the user is no longer connected, so a second
disconnect fails with the not-connected error and changes neither the
database nor the local store. -/
theorem disconnect_resets_both_and_clears_history
    (db : DB) (ls : MessageStore.ChatState) (uid pid : String) (a b : UserRow)
    (hfilt : db.users.filter
      (fun u => u.id == uid && u.connection_status == "connected") = [a])
    (hu : db.userById uid = some a)
    (hct : a.connected_to = some pid)
    (hpidne : pid ≠ "")
    (hb : db.userById pid = some b)
    (hne : uid ≠ pid) :
    (confirmDisconnect db ls uid).1 = .ok ∧
    ((confirmDisconnect db ls uid).2.1.userById uid =
      some { a with connection_status := "disconnected", connected_to := none }) ∧
    ((confirmDisconnect db ls uid).2.1.userById pid =
      some { b with connection_status := "disconnected", connected_to := none }) ∧
    ((confirmDisconnect db ls uid).2.2.messages = []) ∧
    (∀ ls2 : MessageStore.ChatState,
      confirmDisconnect (confirmDisconnect db ls uid).2.1 ls2 uid =
        (.notConnected, (confirmDisconnect db ls uid).2.1, ls2)) := by
  have hdisc : ConnectionService.disconnectUsers db uid =
      (.ok,
        { db with users := (db.users.map (fun u =>
            if u.id == uid then
              { u with connection_status := "disconnected", connected_to := none }
            else u)).map (fun u =>
            if u.id == pid then
              { u with connection_status := "disconnected", connected_to := none }
            else u) }) := by
    unfold ConnectionService.disconnectUsers
    rw [hfilt]
    show (match a.connected_to with
      | none => _
      | some connectedUserId => _) = _
    rw [hct]
    show (if pid = "" then _ else _) = _
    rw [if_neg hpidne]
  have hconf : confirmDisconnect db ls uid =
      (.ok, (ConnectionService.disconnectUsers db uid).2,
        MessageStore.resetStore ls) := by
    unfold confirmDisconnect
    rw [hdisc]
  have ha' : db.users.find? (fun u => u.id == uid) = some a := hu
  have hb' : db.users.find? (fun u => u.id == pid) = some b := hb
  have haid' : a.id = uid := eq_of_beq (by simpa using List.find?_some ha')
  have hbid' : b.id = pid := eq_of_beq (by simpa using List.find?_some hb')
  have hempty : (ConnectionService.disconnectUsers db uid).2.users.filter
      (fun u => u.id == uid && u.connection_status == "connected") = [] := by
    rw [hdisc]
    rw [List.filter_eq_nil_iff]
    intro u hu2
    rw [List.mem_map] at hu2
    obtain ⟨v, hv, rfl⟩ := hu2
    rw [List.mem_map] at hv
    obtain ⟨w, hw, rfl⟩ := hv
    have hpu : pid ≠ uid := Ne.symm hne
    by_cases h1 : w.id = uid
    · simp [h1, hne]
    · by_cases h2 : w.id = pid
      · simp [h1, h2, hpu]
      · simp [h1, h2]
  have hsecond : ∀ db2 : DB, db2.users.filter
      (fun u => u.id == uid && u.connection_status == "connected") = [] →
      ∀ ls2 : MessageStore.ChatState,
      confirmDisconnect db2 ls2 uid = (.notConnected, db2, ls2) := by
    intro db2 h ls2
    unfold confirmDisconnect ConnectionService.disconnectUsers
    rw [h]
  refine ⟨by rw [hconf], ?_, ?_, by rw [hconf]; rfl, ?_⟩
  · rw [hconf]
    show (ConnectionService.disconnectUsers db uid).2.userById uid = _
    rw [hdisc]
    show ((db.users.map _).map _).find? _ = _
    rw [find?_map_key _ _ (fun u => by split <;> rfl),
        find?_map_key _ _ (fun u => by split <;> rfl)]
    rw [ha']
    simp [haid', hne]
  · rw [hconf]
    show (ConnectionService.disconnectUsers db uid).2.userById pid = _
    rw [hdisc]
    show ((db.users.map _).map _).find? _ = _
    rw [find?_map_key _ _ (fun u => by split <;> rfl),
        find?_map_key _ _ (fun u => by split <;> rfl)]
    rw [hb']
    have hne' : pid ≠ uid := Ne.symm hne
    simp [hbid', hne']
  · intro ls2
    rw [hconf]
    exact hsecond _ hempty ls2

/-- Witness for C8 on `dbConnectedPair` with the chat history of
`chatOnline`: disconnecting `A` resets both rows, clears the local
window, and a second disconnect fails without further changes. -/
theorem disconnect_resets_both_and_clears_history_witness :
    (confirmDisconnect dbConnectedPair chatOnline "A").1 = .ok ∧
    ((confirmDisconnect dbConnectedPair chatOnline "A").2.1.userById "A" =
      some ⟨"A", "disconnected", none⟩) ∧
    ((confirmDisconnect dbConnectedPair chatOnline "A").2.1.userById "B" =
      some ⟨"B", "disconnected", none⟩) ∧
    ((confirmDisconnect dbConnectedPair chatOnline "A").2.2.messages = []) ∧
    (∀ ls2 : MessageStore.ChatState,
      confirmDisconnect (confirmDisconnect dbConnectedPair chatOnline "A").2.1 ls2 "A" =
        (.notConnected, (confirmDisconnect dbConnectedPair chatOnline "A").2.1, ls2)) :=
  disconnect_resets_both_and_clears_history dbConnectedPair chatOnline "A" "B"
    ⟨"A", "connected", some "B"⟩ ⟨"B", "connected", some "A"⟩
    (by decide) rfl rfl (by decide) rfl (by decide)

/-- C10: the connection store's `sendRequest` passes
`connectedUser?.id || ''` as the from-user.  When `connectedUser` is
`null` — which is the case in the disconnected state, the only state from
which sending is permitted — the service is invoked with the empty string
as from-user, and (no user row carrying the empty id) the lookup of the
two users fails, so the operation always fails with the users-not-found
error and changes nothing. -/
theorem storeSendRequest_empty_from_never_succeeds
    (st : ConnectionStore.StoreState) (db : DB) (toUserId newId : String)
    (hcu : st.connectedUser = none)
    (hno : ∀ u ∈ db.users, u.id ≠ "") :
    ConnectionService.sendConnectionRequest db "" toUserId newId =
      (.usersNotFound, db) ∧
    ConnectionStore.sendRequest st db toUserId newId =
      (false, { st with error := some .usersNotFound }, db) := by
  have hsvc : ConnectionService.sendConnectionRequest db "" toUserId newId =
      (.usersNotFound, db) := by
    have hnone : (db.users.filter (fun u => u.id == "" || u.id == toUserId)).find?
        (fun u => u.id == "") = none := by
      rw [List.find?_eq_none]
      intro u hu
      have h := hno u (List.mem_filter.mp hu).1
      simpa using h
    unfold ConnectionService.sendConnectionRequest
    by_cases hlen : (db.users.filter (fun u => u.id == "" || u.id == toUserId)).length ≠ 2
    · rw [if_pos hlen]
    · rw [if_neg hlen, hnone]
  refine ⟨hsvc, ?_⟩
  unfold ConnectionStore.sendRequest
  rw [hcu]
  simp only [Option.map_none', Option.getD_none, hsvc]

/-- Witness for C10: on `dbFreshPair` with a disconnected session state,
the store-level request to `B` fails with the users-not-found error. -/
theorem storeSendRequest_empty_from_never_succeeds_witness :
    ConnectionService.sendConnectionRequest dbFreshPair "" "B" "r9" =
      (.usersNotFound, dbFreshPair) ∧
    ConnectionStore.sendRequest connStoreDisconnected dbFreshPair "B" "r9" =
      (false, ⟨some "disconnected", none, some .usersNotFound⟩, dbFreshPair) :=
  storeSendRequest_empty_from_never_succeeds connStoreDisconnected dbFreshPair
    "B" "r9" rfl (by decide)

/-- C3 counterexample: `markMessageAsRead` called twice on `m1` (first at
time 1, then at time 2) does not leave `readAt` at its value after the
first call: the second call overwrites it with the later timestamp. -/
theorem markAsRead_second_call_overwrites :
    MessageService.markMessageAsRead
        (MessageService.markMessageAsRead msgsOneUnread 1 "m1") 2 "m1" ≠
      MessageService.markMessageAsRead msgsOneUnread 1 "m1" ∧
    (MessageService.markMessageAsRead msgsOneUnread 1 "m1").map
      (fun m => m.read_at) = [some 1] ∧
    (MessageService.markMessageAsRead
        (MessageService.markMessageAsRead msgsOneUnread 1 "m1") 2 "m1").map
      (fun m => m.read_at) = [some 2] := by
  refine ⟨by decide, by decide, by decide⟩

/-- C3 amended: the single-message `markAsRead` is last-write-wins — a
second call is equivalent to a single call at the second timestamp, so it
overwrites `readAt` whenever the timestamps differ; the bulk
`markAllAsRead` only touches rows with `readAt = null` and is idempotent
(a repeat call is a no-op). -/
theorem markAsRead_last_write_wins_bulk_idempotent
    (msgs : List Message) (t1 t2 : Nat) (mid fromU toU : String) :
    MessageService.markMessageAsRead
        (MessageService.markMessageAsRead msgs t1 mid) t2 mid =
      MessageService.markMessageAsRead msgs t2 mid ∧
    MessageService.markAllMessagesAsRead
        (MessageService.markAllMessagesAsRead msgs t1 fromU toU) t2 fromU toU =
      MessageService.markAllMessagesAsRead msgs t1 fromU toU := by
  constructor
  · unfold MessageService.markMessageAsRead
    rw [List.map_map]
    congr 1
    funext m
    by_cases h : m.id = mid
    · simp [h]
    · simp [h]
  · unfold MessageService.markAllMessagesAsRead
    rw [List.map_map]
    congr 1
    funext m
    by_cases h : (m.from_user == fromU && m.to_user == toU && m.read_at == none) = true
    · rw [Function.comp_apply, if_pos h]
      have h2 : (m.from_user == fromU && m.to_user == toU
          && ((some t1 : Option Nat) == none)) = false := by
        simp
      rw [if_neg]
      simp [h2]
    · rw [Function.comp_apply, if_neg h, if_neg h]

/-- C4: the message service rejects 501-character content with the
too-long error and inserts nothing, but the store-level `sendMessage`
never validates length itself: offline it enqueues the over-long content
and appends a local `sending` message while surfacing no error, and
online it has already appended the optimistic record, which the service
rejection then flips to `failed` instead of leaving the window
untouched. -/
theorem sendMessage_501_effects :
    MessageService.sendMessage [] "s1" 0 "A" "B" content501 true =
      (.tooLong, []) ∧
    (MessageStore.sendMessage chatOffline [] "A" "B" content501
        "t1" "off1" "s1" 0 true).1.offlineQueue = [⟨"B", content501, 0⟩] ∧
    (MessageStore.sendMessage chatOffline [] "A" "B" content501
        "t1" "off1" "s1" 0 true).1.messages.length = 1 ∧
    (MessageStore.sendMessage chatOffline [] "A" "B" content501
        "t1" "off1" "s1" 0 true).1.error = none ∧
    (MessageStore.sendMessage chatOnline [] "A" "B" content501
        "t1" "off1" "s1" 0 true).1.messages.map (fun m => (m.id, m.localStatus)) =
      [("t1", some .failed), ("m0", none)] := by
  refine ⟨by decide, by decide, by decide, by decide, by decide⟩

/-- The drain loop succeeds, clears the queue and attempts every entry in
order when every send succeeds. -/
theorem drainLoop_all_ok (attempt : QueueEntry → Bool) :
    ∀ q : List QueueEntry, (∀ e ∈ q, attempt e = true) →
      MessageService.drainLoop attempt q = (true, [], q) := by
  intro q
  induction q with
  | nil => intro _; rfl
  | cons e rest ih =>
    intro h
    simp only [MessageService.drainLoop]
    rw [if_pos (h e (List.mem_cons_self e rest)),
        ih (fun x hx => h x (List.mem_cons_of_mem e hx))]

/-- The drain loop stops at the first failing entry: the successful
prefix plus the failing entry are attempted, and the suffix from the
failing entry is stored back. -/
theorem drainLoop_stops_at_failure (attempt : QueueEntry → Bool) :
    ∀ (pre : List QueueEntry) (f : QueueEntry) (suf : List QueueEntry),
      (∀ e ∈ pre, attempt e = true) → attempt f = false →
      MessageService.drainLoop attempt (pre ++ f :: suf) =
        (false, f :: suf, pre ++ [f]) := by
  intro pre
  induction pre with
  | nil =>
    intro f suf _ hf
    rw [List.nil_append]
    simp only [MessageService.drainLoop]
    rw [if_neg (by rw [hf]; exact Bool.false_ne_true)]
    rfl
  | cons e rest ih =>
    intro f suf h hf
    rw [List.cons_append]
    simp only [MessageService.drainLoop]
    rw [if_pos (h e (List.mem_cons_self e rest)),
        ih f suf (fun x hx => h x (List.mem_cons_of_mem e hx)) hf]
    rfl

/-- C5: `processOfflineQueue` drains strictly in FIFO order.  If every
send succeeds, every entry is attempted in enqueue order and the stored
queue is cleared.  If the send of entry `f` fails after the prefix `pre`
succeeded, the attempted entries are exactly `pre ++ [f]` — no later
entry is attempted — and the stored queue afterwards is exactly the
suffix starting at `f`, order preserved. -/
theorem drain_fifo_stop_on_first_failure
    (attempt : QueueEntry → Bool) (queue : List QueueEntry) :
    ((∀ e ∈ queue, attempt e = true) →
      MessageService.processOfflineQueue attempt queue = (true, [], queue)) ∧
    (∀ (pre : List QueueEntry) (f : QueueEntry) (suf : List QueueEntry),
      queue = pre ++ f :: suf →
      (∀ e ∈ pre, attempt e = true) → attempt f = false →
      MessageService.processOfflineQueue attempt queue =
        (false, f :: suf, pre ++ [f])) := by
  constructor
  · intro h
    by_cases hq : queue = []
    · subst hq; rfl
    · unfold MessageService.processOfflineQueue
      rw [if_neg hq, drainLoop_all_ok attempt queue h]
  · intro pre f suf hq h hf
    have hne : queue ≠ [] := by
      rw [hq]; exact List.append_ne_nil_of_right_ne_nil pre (List.cons_ne_nil f suf)
    unfold MessageService.processOfflineQueue
    rw [if_neg hne, hq, drainLoop_stops_at_failure attempt pre f suf h hf]

/-- Witness for C5: a single-entry queue drains fully; on `queueThree`
with the second entry failing, the drain attempts exactly the first two
entries and stores back the suffix from the failed entry. -/
theorem drain_fifo_stop_on_first_failure_witness :
    MessageService.processOfflineQueue attemptNotTwo [⟨"B", "one", 1⟩] =
      (true, [], [⟨"B", "one", 1⟩]) ∧
    MessageService.processOfflineQueue attemptNotTwo queueThree =
      (false, [⟨"B", "two", 2⟩, ⟨"B", "three", 3⟩],
        [⟨"B", "one", 1⟩, ⟨"B", "two", 2⟩]) :=
  ⟨(drain_fifo_stop_on_first_failure attemptNotTwo [⟨"B", "one", 1⟩]).1 (by decide),
   (drain_fifo_stop_on_first_failure attemptNotTwo queueThree).2
     [⟨"B", "one", 1⟩] ⟨"B", "two", 2⟩ [⟨"B", "three", 3⟩]
     (by decide) (by decide) (by decide)⟩

/-- An update keyed by a fresh temporary id replaces exactly the head
record carrying it and leaves the rest of the window untouched. -/
theorem replaceById_cons (tempId : String) (g : LocalMessage → LocalMessage)
    (opt : LocalMessage) (tail : List LocalMessage)
    (hopt : opt.id = tempId) (hfresh : ∀ m ∈ tail, m.id ≠ tempId) :
    (opt :: tail).map (fun m => if m.id == tempId then g m else m) =
      g opt :: tail := by
  rw [List.map_cons]
  rw [show (if opt.id == tempId then g opt else opt) = g opt from by simp [hopt]]
  rw [List.map_congr_left
    (fun m hm => by simp [hfresh m hm] : ∀ m ∈ tail,
      (if m.id == tempId then g m else m) = id m)]
  rw [List.map_id]

/-- C6: for an online send whose temporary id is fresh in the window and
whose content passes validation: the optimistic record (status `sending`)
is prepended to the window by the synchronous phase, the whole action is
exactly that synchronous phase followed by the continuation applied to
the network result (the append is observable before the network call),
and afterwards — on success the very record matched by the temporary id
has been replaced in place by the authoritative server record with status
`sent` (the rest of the window untouched); on failure the same record is
flipped to status `failed` without being removed. -/
theorem optimistic_send_lifecycle
    (s : MessageStore.ChatState) (serverMsgs : List Message)
    (userId partnerId content tempId offlineId serverId : String) (now : Nat)
    (hon : s.isOnline = true)
    (hfresh : ∀ m ∈ s.messages, m.id ≠ tempId)
    (htrim : jsTrim content ≠ "")
    (hlen : content.length ≤ 500) :
    ((MessageStore.sendMessagePhase1 s tempId userId partnerId content now).messages =
      MessageStore.optimisticMessage tempId userId partnerId content now
        :: s.messages) ∧
    ((MessageStore.optimisticMessage tempId userId partnerId content now).localStatus =
      some .sending) ∧
    (∀ insertOk : Bool,
      MessageStore.sendMessage s serverMsgs userId partnerId content tempId
          offlineId serverId now insertOk =
        (MessageStore.sendMessagePhase2
          (MessageStore.sendMessagePhase1 s tempId userId partnerId content now)
          tempId
          (MessageService.sendMessage serverMsgs serverId now userId partnerId
            content insertOk).1,
         (MessageService.sendMessage serverMsgs serverId now userId partnerId
            content insertOk).2)) ∧
    ((MessageStore.sendMessage s serverMsgs userId partnerId content tempId
        offlineId serverId now true).1.messages =
      msgAsLocalWith
        ⟨serverId, userId, partnerId, jsTrim content, now, none⟩ .sent
        :: s.messages) ∧
    ((MessageStore.sendMessage s serverMsgs userId partnerId content tempId
        offlineId serverId now false).1.messages =
      { MessageStore.optimisticMessage tempId userId partnerId content now with
          localStatus := some .failed } :: s.messages) := by
  have honline : ∀ insertOk : Bool,
      MessageStore.sendMessage s serverMsgs userId partnerId content tempId
          offlineId serverId now insertOk =
        (MessageStore.sendMessagePhase2
          (MessageStore.sendMessagePhase1 s tempId userId partnerId content now)
          tempId
          (MessageService.sendMessage serverMsgs serverId now userId partnerId
            content insertOk).1,
         (MessageService.sendMessage serverMsgs serverId now userId partnerId
            content insertOk).2) := by
    intro insertOk
    unfold MessageStore.sendMessage
    rw [hon]
    rw [if_neg (fun h => Bool.noConfusion h)]
  have hnotlong : ¬(content.length > 500) := Nat.not_lt.mpr hlen
  have hsent : MessageService.sendMessage serverMsgs serverId now userId partnerId
      content true =
      (.sent ⟨serverId, userId, partnerId, jsTrim content, now, none⟩,
        serverMsgs ++ [⟨serverId, userId, partnerId, jsTrim content, now, none⟩]) := by
    unfold MessageService.sendMessage
    rw [if_neg htrim, if_neg hnotlong, if_pos rfl]
  have hfailed : MessageService.sendMessage serverMsgs serverId now userId partnerId
      content false = (.insertFailed, serverMsgs) := by
    unfold MessageService.sendMessage
    rw [if_neg htrim, if_neg hnotlong]
    rfl
  refine ⟨rfl, rfl, honline, ?_, ?_⟩
  · rw [honline true, hsent]
    show (MessageStore.optimisticMessage tempId userId partnerId content now
        :: s.messages).map (fun m =>
          if m.id == tempId then
            msgAsLocalWith
              ⟨serverId, userId, partnerId, jsTrim content, now, none⟩ .sent
          else m) =
      msgAsLocalWith ⟨serverId, userId, partnerId, jsTrim content, now, none⟩ .sent
        :: s.messages
    exact replaceById_cons tempId _ _ s.messages rfl hfresh
  · rw [honline false, hfailed]
    show (MessageStore.optimisticMessage tempId userId partnerId content now
        :: s.messages).map (fun m =>
          if m.id == tempId then { m with localStatus := some .failed } else m) =
      { MessageStore.optimisticMessage tempId userId partnerId content now with
          localStatus := some .failed } :: s.messages
    exact replaceById_cons tempId _ _ s.messages rfl hfresh

/-- Witness for C6 on `chatOnline`: the optimistic record appears at the
head of the window with status `sending`; after a successful send it is
replaced by the server record with status `sent`; after a failed send it
is flipped to `failed`, and in both cases the previously received message
`m0` is untouched. -/
theorem optimistic_send_lifecycle_witness :
    ((MessageStore.sendMessagePhase1 chatOnline "t1" "A" "B" "hi" 9).messages =
      MessageStore.optimisticMessage "t1" "A" "B" "hi" 9
        :: chatOnline.messages) ∧
    ((MessageStore.optimisticMessage "t1" "A" "B" "hi" 9).localStatus =
      some .sending) ∧
    ((MessageStore.sendMessage chatOnline [] "A" "B" "hi" "t1" "off1" "s1" 9
        true).1.messages =
      msgAsLocalWith ⟨"s1", "A", "B", "hi", 9, none⟩ .sent
        :: chatOnline.messages) ∧
    ((MessageStore.sendMessage chatOnline [] "A" "B" "hi" "t1" "off1" "s1" 9
        false).1.messages =
      { MessageStore.optimisticMessage "t1" "A" "B" "hi" 9 with
          localStatus := some .failed } :: chatOnline.messages) := by
  have h := optimistic_send_lifecycle chatOnline [] "A" "B" "hi" "t1" "off1" "s1" 9
    rfl (by decide) (by decide) (by decide)
  exact ⟨h.1, h.2.1, h.2.2.2.1, h.2.2.2.2⟩

/-- C9: evaluating `loadMoreMessages` on a window already holding the 200
newest messages of a 220-message conversation.  The window stays capped
at 200, but the retained subset is not the most recent messages:
`slice(-200)` on the newest-first array drops the 20 newest messages
(`convMsg 0`, `created_at = 1000`, is gone) and keeps the 200 oldest of
the combined window (`convMsg 219`, `created_at = 781`, is kept), and the
persisted cache (`slice(-100)`) keeps the oldest 100 of those. -/
theorem loadMore_drops_newest_messages :
    (MessageStore.loadMoreMessages pagFull conversation220).messages.length = 200 ∧
    (MessageStore.loadMoreMessages pagFull conversation220).messages.head? =
      some (msgAsLocal (convMsg 20)) ∧
    msgAsLocal (convMsg 0) ∉
      (MessageStore.loadMoreMessages pagFull conversation220).messages ∧
    msgAsLocal (convMsg 219) ∈
      (MessageStore.loadMoreMessages pagFull conversation220).messages ∧
    (MessageStore.loadMoreMessages pagFull conversation220).cachedMessages.length =
      100 ∧
    (MessageStore.loadMoreMessages pagFull conversation220).cachedMessages.head? =
      some (msgAsLocal (convMsg 120)) := by
  decide

end Ottr
